import Mathlib

/-!
Shallow embedding of the rotator driver (src/rotator.rs) of the
unl-rocketry/archerd repository.

The driver talks to a two-axis rotator over a serial port using a
line-oriented text protocol.  We embed the pure protocol logic:

* `Command` / `Direction` and their wire tokens (`Display` impls);
* `send_command`, which writes the request line to the port and retains a
  byte-for-byte copy for the later echo check (modelled as a pair of
  strings built by the same sequence of appends, mirroring the two
  lock-step `write_all` calls in the source);
* the response-reading loop of `validate_parse`, modelled by a list of
  `ReadEvent`s describing what each successive `port.read` call yields;
* the validation/parsing part of `validate_parse` (`vpParse`);
* every public operation of `Rotator` that the claims mention.

Rust `Vec` indexing `v[i]` panics when `i` is out of bounds; we model each
such indexing site explicitly, so results live in `Outcome`, which has a
dedicated `panicked` constructor besides `err` (the `Error` enum of the
source) and `ok`.

Rust `f32` values are modelled as exact rationals (`Rat`); the inputs and
wire texts appearing in the claims (30.0, "12.500", "-3.250") are exactly
representable in `f32`, so the rational model agrees with the float code
on them.  String helpers from the Rust standard library
(`split_terminator`, `splitn`, `split_ascii_whitespace`, `trim`) are
re-implemented structurally over `List Char` so that all string
processing reduces under `decide`.
-/

namespace Archerd

/-- Command that the rotator accepts (enum `Command` in the source). -/
inductive Command
  | DegreesVertical
  | DegreesHorizontal
  | CalibrateVertical
  | CalibrateHorizontal
  | Movement
  | MoveVerticalSteps
  | MoveHorizontalSteps
  | GetPosition
  | GetCalibrated
  | GetVersion
  | Halt
deriving DecidableEq

/-- Wire token of a command (the `Display` impl for `Command`). -/
def commandText : Command → String
  | Command.DegreesVertical => "DVER"
  | Command.DegreesHorizontal => "DHOR"
  | Command.CalibrateVertical => "CALV"
  | Command.CalibrateHorizontal => "CALH"
  | Command.Movement => "MOVC"
  | Command.MoveVerticalSteps => "MOVV"
  | Command.MoveHorizontalSteps => "MOVH"
  | Command.GetPosition => "GETP"
  | Command.GetCalibrated => "GETC"
  | Command.GetVersion => "VERS"
  | Command.Halt => "HALT"

/-- Direction accepted by the movement command (enum `Direction`). -/
inductive Direction
  | Up
  | Down
  | StopVertical
  | Left
  | Right
  | StopHorizontal
deriving DecidableEq

/-- Wire token of a direction (the `Display` impl for `Direction`). -/
def directionText : Direction → String
  | Direction.Up => "UP"
  | Direction.Down => "DN"
  | Direction.StopVertical => "SV"
  | Direction.Left => "LT"
  | Direction.Right => "RT"
  | Direction.StopHorizontal => "SH"

/-- The `Error` enum of the source.  `SerialError` and `IOError` carry an
underlying error in Rust; the claims never inspect it, so we carry no
payload for them. -/
inductive Error
  | ResponseError (msg : String)
  | InvalidResponse
  | ExpectedValue
  | ParseError (msg : String)
  | SerialError
  | IOError
deriving DecidableEq

/-- Result of running a fallible, possibly panicking piece of Rust code:
either an out-of-bounds `Vec` indexing panicked, or an `Err` was
returned, or an `Ok` value was produced. -/
inductive Outcome (α : Type)
  | panicked
  | err (e : Error)
  | ok (val : α)
deriving DecidableEq

/-- One `port.read(&mut buffer)` result inside the reading loop of
`validate_parse`: either `Ok(num_read)` delivering a chunk of text
(`num_read = 0` is the chunk being empty), or an I/O error.  Chunks are
modelled as Lean strings, hence always valid UTF-8; the claims never
exercise the invalid-UTF-8 branch of the loop. -/
inductive ReadEvent
  | data (s : String)
  | ioErr
deriving DecidableEq

/-- The reading loop of `validate_parse`: accumulate chunks
`while let Ok(num_read) = self.port.read(&mut buffer) && num_read != 0`.
The loop stops at the first empty chunk or I/O error; note that an I/O
error terminates the loop silently instead of being propagated.  An
exhausted event list behaves like an idle transport. -/
def readAll : List ReadEvent → String
  | [] => ""
  | ReadEvent.data s :: rest => if s = "" then "" else s ++ readAll rest
  | ReadEvent.ioErr :: _ => ""

/-- Whitespace test used by Rust `str::trim` (`char::is_whitespace`),
restricted to the ASCII range, which is all the request lines use. -/
def isWsChar (c : Char) : Bool :=
  c = ' ' ∨ c = '\t' ∨ c = '\n' ∨ c = '\r'

/-- Rust `str::trim`: drop leading and trailing whitespace. -/
def trimStr (s : String) : String :=
  String.mk (((s.data.dropWhile isWsChar).reverse.dropWhile isWsChar).reverse)

/-- Split a character list at every newline, keeping empty segments
(Rust `str::split('\n')`). -/
def splitOnNlChars : List Char → List (List Char)
  | [] => [[]]
  | '\n' :: rest => [] :: splitOnNlChars rest
  | c :: rest =>
    match splitOnNlChars rest with
    | [] => [[c]]
    | l :: ls => (c :: l) :: ls

/-- Rust `str::split_terminator('\n')`: like `split`, but the final
segment is dropped when it is empty. -/
def splitTerminatorNl (s : String) : List String :=
  let p := (splitOnNlChars s.data).map String.mk
  if p.getLast? = some "" then p.dropLast else p

/-- Helper for `splitn2Space`: locate the first space. -/
def splitAtSpace : List Char → Option (List Char × List Char)
  | [] => none
  | c :: rest =>
    if c = ' ' then some ([], rest)
    else
      match splitAtSpace rest with
      | none => none
      | some (a, b) => some (c :: a, b)

/-- Rust `str::splitn(2, ' ')`: at most two pieces, split at the first
space.  Always returns a non-empty list; returns a single element when
the string contains no space. -/
def splitn2Space (s : String) : List String :=
  match splitAtSpace s.data with
  | none => [s]
  | some (a, b) => [String.mk a, String.mk b]

/-- ASCII whitespace per Rust `char::is_ascii_whitespace`: space, tab,
line feed, form feed, carriage return. -/
def isAsciiWsChar (c : Char) : Bool :=
  c = ' ' ∨ c = '\t' ∨ c = '\n' ∨ c = '\x0C' ∨ c = '\r'

/-- Worker for `splitAsciiWs`; `acc` is the current word, reversed. -/
def splitWsGo : List Char → List Char → List (List Char)
  | [], acc => if acc = [] then [] else [acc.reverse]
  | c :: rest, acc =>
    if isAsciiWsChar c then
      if acc = [] then splitWsGo rest []
      else acc.reverse :: splitWsGo rest []
    else splitWsGo rest (c :: acc)

/-- Rust `str::split_ascii_whitespace`: maximal runs of non-whitespace
characters, in order; never yields an empty token. -/
def splitAsciiWs (s : String) : List String :=
  (splitWsGo s.data []).map String.mk

/-- Validation part of `validate_parse` (everything after the reading
loop), as a function of the retained request line and the accumulated
response text.  Every `Vec` indexing of the source is modelled by a
`List.get?` whose `none` case is a panic, in the evaluation order of the
source: `response_lines[0]`, then the echo comparison, then
`response_lines[1]`, then `response_list[0]`, then (in the ERR arm or
after the OK match) `response_list[1]`. -/
def vpParse (command_string : String) (response_string : String) :
    Outcome (Option (List String)) :=
  let response_lines := splitTerminatorNl response_string
  match response_lines.get? 0 with
  | none => Outcome.panicked
  | some line0 =>
    if line0 ≠ trimStr command_string then Outcome.err Error.InvalidResponse
    else
      match response_lines.get? 1 with
      | none => Outcome.panicked
      | some line1 =>
        let response_list := splitn2Space line1
        match response_list.get? 0 with
        | none => Outcome.panicked
        | some status =>
          if status = "ERR" then
            match response_list.get? 1 with
            | none => Outcome.panicked
            | some msg => Outcome.err (Error.ResponseError msg)
          else if status = "OK" then
            match response_list.get? 1 with
            | none => Outcome.panicked
            | some payload =>
              let values := splitAsciiWs payload
              if values.isEmpty then Outcome.ok none
              else Outcome.ok (some values)
          else Outcome.err Error.InvalidResponse

/-- The `validate_parse` method: run the reading loop over the transport
events, then validate and parse the accumulated text. -/
def validate_parse (command_string : String) (events : List ReadEvent) :
    Outcome (Option (List String)) :=
  vpParse command_string (readAll events)

/-- The `send_command` method.  The source writes the token, each
argument preceded by a space, and a final newline to the serial port,
and mirrors every write into a local buffer that it returns for the echo
check.  We model the two byte streams as a pair of strings built by the
same sequence of appends: first component what the port received, second
component the retained copy. -/
def send_command (command : Command) (args : List String) : String × String :=
  let t := commandText command
  let acc := args.foldl
    (fun p arg => (p.1 ++ " " ++ arg, p.2 ++ " " ++ arg)) (t, t)
  (acc.1 ++ "\n", acc.2 ++ "\n")

/-- Decimal digits of `n`, least significant first; `fuel` bounds the
recursion (`fuel = n` suffices). -/
def natRevDigits : Nat → Nat → List Char
  | 0, _ => []
  | fuel + 1, n =>
    if n = 0 then []
    else Char.ofNat (48 + n % 10) :: natRevDigits fuel (n / 10)

/-- Decimal rendering of a natural number (Rust `u32`-style `Display`). -/
def natToStr (n : Nat) : String :=
  if n = 0 then "0" else String.mk (natRevDigits n n).reverse

/-- Decimal rendering of an integer (Rust `i32::to_string`). -/
def intToStr (i : Int) : String :=
  (if i < 0 then "-" else "") ++ natToStr i.natAbs

/-- Left-pad with zeroes to three characters; renders the fractional
part of a three-decimal fixed-point number. -/
def pad3 (n : Nat) : String :=
  String.mk [Char.ofNat (48 + n / 100 % 10), Char.ofNat (48 + n / 10 % 10),
    Char.ofNat (48 + n % 10)]

/-- Magnitude of `q` in thousandths, rounded to nearest: this is
`floor(abs q * 1000 + 1/2)` computed on the numerator and denominator,
modelling the digit selection of Rust `format!("\x7b:0.3\x7d")` on
`f32`.  (Rust breaks exact ties to even; the claims use values with an
exact three-decimal representation where no tie arises.) -/
def fix3Nat (q : Rat) : Nat :=
  (q.num.natAbs * 1000 * 2 + q.den) / (2 * q.den)

/-- Rust `format!("\x7b:0.3\x7d", x)`: fixed-point rendering with
exactly three fractional digits, a leading minus sign for negative
values. -/
def fmtFixed3 (q : Rat) : String :=
  (if q < 0 then "-" else "") ++ natToStr (fix3Nat q / 1000) ++ "." ++
    pad3 (fix3Nat q % 1000)

/-- First stage of Rust `str::parse::<f32>()`: recognise an optional
sign, an integer digit run and an optional fractional digit run, and
return (negative?, integer digits value, fraction digits value, number
of fraction digits).  Exponents and the inf/nan spellings accepted by
Rust are outside the grammar the claims exercise and are not modelled. -/
def parseFloatParts (s : String) : Option (Bool × Nat × Nat × Nat) :=
  let withSign : Bool × List Char :=
    match s.data with
    | '-' :: rest => (true, rest)
    | '+' :: rest => (false, rest)
    | rest => (false, rest)
  let intD := withSign.2.takeWhile Char.isDigit
  let rest := withSign.2.dropWhile Char.isDigit
  let natOf : List Char → Nat :=
    fun l => l.foldl (fun a c => a * 10 + (c.toNat - 48)) 0
  match rest with
  | [] =>
    if intD = [] then none
    else some (withSign.1, natOf intD, 0, 0)
  | '.' :: frac =>
    if frac.all Char.isDigit ∧ (intD ≠ [] ∨ frac ≠ []) then
      some (withSign.1, natOf intD, natOf frac, frac.length)
    else none
  | _ => none

/-- Rational value of a parsed decimal: sign applied to
`intPart + fracPart / 10 ^ fracLen`. -/
def ratOfParts (p : Bool × Nat × Nat × Nat) : Rat :=
  (if p.1 then -1 else 1) * ((p.2.1 : Rat) + (p.2.2.1 : Rat) / (10 : Rat) ^ p.2.2.2)

/-- Rust `str::parse::<f32>()`, with `f32` modelled as an exact
rational (see the header comment). -/
def parseFloat (s : String) : Option Rat :=
  (parseFloatParts s).map ratOfParts

/-- Rust `str::parse::<bool>()`: exactly the strings "true" and
"false" parse. -/
def parseBool (s : String) : Option Bool :=
  if s = "true" then some true
  else if s = "false" then some false
  else none

/-- Message of Rust `ParseFloatError` as rendered by `to_string`. -/
def parseFloatErrMsg : String := "invalid float literal"

/-- Message of Rust `ParseBoolError` as rendered by `to_string`. -/
def parseBoolErrMsg : String := "provided string was not `true` or `false`"

/-- The `set_position_vertical` method: send `DVER` with the position
formatted to three decimals, then validate the response.  First
component: the request line written to the port; second: the outcome. -/
def set_position_vertical (pos : Rat) (events : List ReadEvent) :
    String × Outcome Unit :=
  let cs := send_command Command.DegreesVertical [fmtFixed3 pos]
  (cs.1,
    match validate_parse cs.2 events with
    | Outcome.panicked => Outcome.panicked
    | Outcome.err e => Outcome.err e
    | Outcome.ok _ => Outcome.ok ())

/-- The `set_position_horizontal` method: send `DHOR` with the NEGATED
position formatted to three decimals, then validate the response. -/
def set_position_horizontal (pos : Rat) (events : List ReadEvent) :
    String × Outcome Unit :=
  let cs := send_command Command.DegreesHorizontal [fmtFixed3 (-pos)]
  (cs.1,
    match validate_parse cs.2 events with
    | Outcome.panicked => Outcome.panicked
    | Outcome.err e => Outcome.err e
    | Outcome.ok _ => Outcome.ok ())

/-- The `calibrate_vertical` method: send `CALV`, with literal argument
"SET" iff the flag is set. -/
def calibrate_vertical (set : Bool) (events : List ReadEvent) :
    String × Outcome Unit :=
  let cs :=
    if set then send_command Command.CalibrateVertical ["SET"]
    else send_command Command.CalibrateVertical []
  (cs.1,
    match validate_parse cs.2 events with
    | Outcome.panicked => Outcome.panicked
    | Outcome.err e => Outcome.err e
    | Outcome.ok _ => Outcome.ok ())

/-- The `calibrate_horizontal` method: send `CALH` with no arguments. -/
def calibrate_horizontal (events : List ReadEvent) : String × Outcome Unit :=
  let cs := send_command Command.CalibrateHorizontal []
  (cs.1,
    match validate_parse cs.2 events with
    | Outcome.panicked => Outcome.panicked
    | Outcome.err e => Outcome.err e
    | Outcome.ok _ => Outcome.ok ())

/-- The `move_direction` method.  NOTE: the source sends
`Command::CalibrateHorizontal` (token "CALH") here, not
`Command::Movement` (token "MOVC"), even though its doc comment says it
moves in a direction; we embed what the source does. -/
def move_direction (direction : Direction) (events : List ReadEvent) :
    String × Outcome Unit :=
  let cs := send_command Command.CalibrateHorizontal [directionText direction]
  (cs.1,
    match validate_parse cs.2 events with
    | Outcome.panicked => Outcome.panicked
    | Outcome.err e => Outcome.err e
    | Outcome.ok _ => Outcome.ok ())

/-- The `move_vertical_steps` method: send `MOVV` with the step count. -/
def move_vertical_steps (steps : Int) (events : List ReadEvent) :
    String × Outcome Unit :=
  let cs := send_command Command.MoveVerticalSteps [intToStr steps]
  (cs.1,
    match validate_parse cs.2 events with
    | Outcome.panicked => Outcome.panicked
    | Outcome.err e => Outcome.err e
    | Outcome.ok _ => Outcome.ok ())

/-- The `move_horizontal_steps` method: send `MOVH` with the step count. -/
def move_horizontal_steps (steps : Int) (events : List ReadEvent) :
    String × Outcome Unit :=
  let cs := send_command Command.MoveHorizontalSteps [intToStr steps]
  (cs.1,
    match validate_parse cs.2 events with
    | Outcome.panicked => Outcome.panicked
    | Outcome.err e => Outcome.err e
    | Outcome.ok _ => Outcome.ok ())

/-- The `position` method: send `GETP`; a missing value list is
`ExpectedValue`, a list whose length is not 2 is `InvalidResponse`,
otherwise parse both entries as reals (indexing `value_list[0]` and
`value_list[1]` modelled as in the source) and return them as
(vertical, horizontal), without re-negating the horizontal value. -/
def position (events : List ReadEvent) : String × Outcome (Rat × Rat) :=
  let cs := send_command Command.GetPosition []
  (cs.1,
    match validate_parse cs.2 events with
    | Outcome.panicked => Outcome.panicked
    | Outcome.err e => Outcome.err e
    | Outcome.ok none => Outcome.err Error.ExpectedValue
    | Outcome.ok (some value_list) =>
      if value_list.length ≠ 2 then Outcome.err Error.InvalidResponse
      else
        match value_list.get? 0 with
        | none => Outcome.panicked
        | some t0 =>
          match parseFloat t0 with
          | none => Outcome.err (Error.ParseError parseFloatErrMsg)
          | some v =>
            match value_list.get? 1 with
            | none => Outcome.panicked
            | some t1 =>
              match parseFloat t1 with
              | none => Outcome.err (Error.ParseError parseFloatErrMsg)
              | some h => Outcome.ok (v, h))

/-- The `calibrated` method: send `GETC`; a missing value list is
`ExpectedValue`, otherwise the FIRST value is parsed as a boolean
(indexing `value_list[0]`) and any further values are ignored. -/
def calibrated (events : List ReadEvent) : String × Outcome Bool :=
  let cs := send_command Command.GetCalibrated []
  (cs.1,
    match validate_parse cs.2 events with
    | Outcome.panicked => Outcome.panicked
    | Outcome.err e => Outcome.err e
    | Outcome.ok none => Outcome.err Error.ExpectedValue
    | Outcome.ok (some value_list) =>
      match value_list.get? 0 with
      | none => Outcome.panicked
      | some t0 =>
        match parseBool t0 with
        | none => Outcome.err (Error.ParseError parseBoolErrMsg)
        | some b => Outcome.ok b)

/-- The `version` method: send `VERS`; a missing value list is
`ExpectedValue`, otherwise the FIRST value is returned (indexing
`v[0]`). -/
def version (events : List ReadEvent) : String × Outcome String :=
  let cs := send_command Command.GetVersion []
  (cs.1,
    match validate_parse cs.2 events with
    | Outcome.panicked => Outcome.panicked
    | Outcome.err e => Outcome.err e
    | Outcome.ok none => Outcome.err Error.ExpectedValue
    | Outcome.ok (some value_list) =>
      match value_list.get? 0 with
      | none => Outcome.panicked
      | some v => Outcome.ok v)

/-- The `halt` method: send `HALT` with no arguments. -/
def halt (events : List ReadEvent) : String × Outcome Unit :=
  let cs := send_command Command.Halt []
  (cs.1,
    match validate_parse cs.2 events with
    | Outcome.panicked => Outcome.panicked
    | Outcome.err e => Outcome.err e
    | Outcome.ok _ => Outcome.ok ())

/-- Text of an argument list as the spec words it: for each argument in
order, a single space followed by the argument text. -/
def argsText : List String → String
  | [] => ""
  | a :: rest => " " ++ a ++ argsText rest

/-- Request line as the spec words it (written down from the spec, to be
compared with `send_command`): the command token, then each argument
preceded by one space, then exactly one newline. -/
def reqLineSpec (command : Command) (args : List String) : String :=
  commandText command ++ argsText args ++ "\n"

/-! ## Helper lemmas -/

/-- The reading loop stops at the first I/O error: events after it do
not change the accumulated response, provided everything before it was a
proper non-empty data chunk (otherwise the loop stopped even earlier). -/
theorem readAll_stops_at_ioErr (pre rest : List ReadEvent)
    (h : ∀ e ∈ pre, e ≠ ReadEvent.ioErr ∧ e ≠ ReadEvent.data "") :
    readAll (pre ++ ReadEvent.ioErr :: rest) = readAll pre := by
  induction pre with
  | nil => rfl
  | cons e pre ih =>
    obtain ⟨h1, h2⟩ := h e (List.mem_cons_self _ _)
    cases e with
    | ioErr => exact absurd rfl h1
    | data s =>
      have hs : ¬ s = "" := fun hc => h2 (by rw [hc])
      simp only [List.cons_append, readAll, if_neg hs]
      exact congrArg (s ++ ·) (ih (fun e he => h e (List.mem_cons_of_mem _ he)))

/-- Whenever `validate_parse` produces a value list at all, the list is
non-empty: the empty split is returned as `none`, never as `some []`. -/
theorem vp_values_ne_nil (cs : String) (evs : List ReadEvent) (vl : List String)
    (h : validate_parse cs evs = Outcome.ok (some vl)) : vl ≠ [] := by
  simp only [validate_parse, vpParse] at h
  repeat' split at h
  all_goals simp_all [List.isEmpty_iff]

/-- The dual-accumulator fold of `send_command` appends the same
argument text to both components. -/
theorem send_command_foldl (args : List String) (s₁ s₂ : String) :
    args.foldl (fun p arg => (p.1 ++ " " ++ arg, p.2 ++ " " ++ arg)) (s₁, s₂) =
      (s₁ ++ argsText args, s₂ ++ argsText args) := by
  induction args generalizing s₁ s₂ with
  | nil => simp [argsText, String.append_empty]
  | cons a rest ih =>
    simp only [List.foldl_cons, argsText]
    rw [ih]
    simp [String.append_assoc]

/-! ## Claims -/

/-- C1: the claim says the zero-value operations succeed on the reply
"echo newline OK newline".  They do not: with the status line consisting
of only "OK", `splitn(2, ' ')` yields a single-element vector, and the
source then indexes `response_list[1]` (rotator.rs line 293), which
panics.  Each zero-value operation panics on exactly the reply the claim
promises success for. -/
theorem c1_ok_status_without_payload_panics :
    (halt [ReadEvent.data "HALT\nOK\n"]).2 = Outcome.panicked ∧
    (calibrate_horizontal [ReadEvent.data "CALH\nOK\n"]).2 = Outcome.panicked ∧
    (set_position_vertical 30 [ReadEvent.data "DVER 30.000\nOK\n"]).2
      = Outcome.panicked := by
  decide

/-- C2 (counterexample): the claim says an I/O error during the
response-reading loop makes the operation fail with that error.  It does
not: on a transport that delivers a full valid reply and then fails with
an I/O error, `halt` succeeds — the `while let Ok(num_read) = ...` loop
simply stops at the error. -/
theorem c2_io_error_swallowed_counterexample :
    (halt [ReadEvent.data "HALT\nOK 1\n", ReadEvent.ioErr]).2 = Outcome.ok () := by
  decide

/-- C2 (amended): an I/O error from a read primitive terminates the
response-reading loop silently; the operation then proceeds to validate
whatever was accumulated before the error, exactly as if the transport
had gone idle — nothing is propagated.  (Hypothesis: the events before
the error are non-empty data chunks, otherwise the loop stopped even
earlier and the error is not reached.) -/
theorem c2_read_error_ends_loop (cs : String) (pre rest : List ReadEvent)
    (h : ∀ e ∈ pre, e ≠ ReadEvent.ioErr ∧ e ≠ ReadEvent.data "") :
    validate_parse cs (pre ++ ReadEvent.ioErr :: rest) = validate_parse cs pre := by
  unfold validate_parse
  rw [readAll_stops_at_ioErr pre rest h]

/-- C2 (witness): concrete instance of `c2_read_error_ends_loop`. -/
theorem c2_read_error_ends_loop_witness :
    (∀ e ∈ [ReadEvent.data "HALT\nOK 1\n"],
      e ≠ ReadEvent.ioErr ∧ e ≠ ReadEvent.data "") ∧
    validate_parse "HALT\n"
        ([ReadEvent.data "HALT\nOK 1\n"] ++ ReadEvent.ioErr :: [ReadEvent.data "junk"])
      = validate_parse "HALT\n" [ReadEvent.data "HALT\nOK 1\n"] :=
  ⟨by decide, c2_read_error_ends_loop "HALT\n" _ _ (by decide)⟩

/-- C3: the claim says a response of fewer than two lines fails with
InvalidResponse.  It does not: with zero lines accumulated (idle
transport, empty buffer) the source panics indexing `response_lines[0]`
(rotator.rs line 280), and with exactly one line that matches the echo
it panics indexing `response_lines[1]` (line 285). -/
theorem c3_short_response_panics :
    validate_parse "HALT\n" [] = Outcome.panicked ∧
    (halt []).2 = Outcome.panicked ∧
    validate_parse "HALT\n" [ReadEvent.data "HALT\n"] = Outcome.panicked := by
  decide

/-- C4: the claim says `move_direction` sends the move-continuous token
"MOVC".  It does not: the source passes `Command::CalibrateHorizontal`
to `send_command` (rotator.rs line 166), so the request line written for
every direction starts with "CALH", and for `Up` it is "CALH UP", not
"MOVC UP". -/
theorem c4_move_direction_sends_calibrate_token :
    (∀ (d : Direction) (evs : List ReadEvent),
      (move_direction d evs).1 = "CALH " ++ directionText d ++ "\n") ∧
    (move_direction Direction.Up []).1 ≠ "MOVC UP\n" := by
  refine ⟨fun d evs => ?_, by decide⟩
  cases d <;> rfl

/-- C5: the claim says an "ERR" status line with absent payload fails
with InvalidResponse, and with a payload fails with ResponseError
carrying the payload verbatim.  The second half holds, but the first
does not: with the status line consisting of only "ERR", the source
indexes `response_list[1]` (rotator.rs line 287) on a single-element
vector and panics. -/
theorem c5_err_reply_behavior :
    (halt [ReadEvent.data "HALT\nERR\n"]).2 = Outcome.panicked ∧
    (halt [ReadEvent.data "HALT\nERR motor stalled\n"]).2
      = Outcome.err (Error.ResponseError "motor stalled") := by
  decide

/-- C6: the get-position operation maps a missing value list to
ExpectedValue, a value count other than 2 to InvalidResponse, an
unparsable token (first or second) to ParseError, and decodes the reply
"GETP newline OK 12.500 -3.250 newline" to the pair (12.5, -3.25) —
vertical first, horizontal NOT re-negated. -/
theorem c6_position_decode :
    (∀ evs, validate_parse (send_command Command.GetPosition []).2 evs
        = Outcome.ok none →
      (position evs).2 = Outcome.err Error.ExpectedValue) ∧
    (∀ evs vl, validate_parse (send_command Command.GetPosition []).2 evs
        = Outcome.ok (some vl) → vl.length ≠ 2 →
      (position evs).2 = Outcome.err Error.InvalidResponse) ∧
    (∀ evs t0 t1, validate_parse (send_command Command.GetPosition []).2 evs
        = Outcome.ok (some [t0, t1]) → parseFloat t0 = none →
      (position evs).2 = Outcome.err (Error.ParseError parseFloatErrMsg)) ∧
    (∀ evs t0 t1 v, validate_parse (send_command Command.GetPosition []).2 evs
        = Outcome.ok (some [t0, t1]) → parseFloat t0 = some v → parseFloat t1 = none →
      (position evs).2 = Outcome.err (Error.ParseError parseFloatErrMsg)) ∧
    (position [ReadEvent.data "GETP\nOK 12.500 -3.250\n"]).2
      = Outcome.ok (25 / 2, -13 / 4) := by
  refine ⟨fun evs h => ?_, fun evs vl h hlen => ?_, fun evs t0 t1 h hp => ?_,
    fun evs t0 t1 v h hp0 hp1 => ?_, ?_⟩
  · simp only [position]
    rw [h]
  · simp only [position]
    rw [h]
    simp [hlen]
  · simp only [position]
    rw [h]
    simp [hp]
  · simp only [position]
    rw [h]
    simp [hp0, hp1]
  · have h1 : (position [ReadEvent.data "GETP\nOK 12.500 -3.250\n"]).2
        = Outcome.ok (ratOfParts (false, 12, 500, 3), ratOfParts (true, 3, 250, 3)) := rfl
    rw [h1]
    simp only [ratOfParts]
    norm_num

/-- C6 (witness): concrete instances of every hypothesis-bearing part of
`c6_position_decode`. -/
theorem c6_position_decode_witness :
    validate_parse (send_command Command.GetPosition []).2 [ReadEvent.data "GETP\nOK \n"]
      = Outcome.ok none ∧
    (position [ReadEvent.data "GETP\nOK \n"]).2 = Outcome.err Error.ExpectedValue ∧
    (position [ReadEvent.data "GETP\nOK 1\n"]).2 = Outcome.err Error.InvalidResponse ∧
    (position [ReadEvent.data "GETP\nOK abc def\n"]).2
      = Outcome.err (Error.ParseError parseFloatErrMsg) ∧
    (position [ReadEvent.data "GETP\nOK 1.5 def\n"]).2
      = Outcome.err (Error.ParseError parseFloatErrMsg) :=
  ⟨by decide,
   c6_position_decode.1 _ (by decide),
   c6_position_decode.2.1 _ ["1"] (by decide) (by decide),
   c6_position_decode.2.2.1 _ "abc" "def" (by decide) (by decide),
   c6_position_decode.2.2.2.1 _ "1.5" "def" (ratOfParts (false, 1, 5, 1))
     (by decide) rfl (by decide)⟩

/-- C7: for every command and argument list, both the byte stream
written to the port and the string retained for the echo check equal the
command token, then each argument preceded by a single space, then
exactly one newline — in particular they are identical. -/
theorem c7_request_line_format (command : Command) (args : List String) :
    send_command command args = (reqLineSpec command args, reqLineSpec command args) := by
  simp only [send_command, reqLineSpec]
  rw [send_command_foldl]

/-- C8: `set_position_horizontal(30.0)` transmits "-30.000" (the input
negated, wire command DHOR) while `set_position_vertical(30.0)`
transmits "30.000" (no negation, wire command DVER). -/
theorem c8_sign_asymmetry :
    fmtFixed3 (-(30 : Rat)) = "-30.000" ∧
    fmtFixed3 (30 : Rat) = "30.000" ∧
    (set_position_horizontal 30 []).1 = "DHOR -30.000\n" ∧
    (set_position_vertical 30 []).1 = "DVER 30.000\n" := by
  decide

/-- C9: for every request line and every accumulated response with at
least two lines, if line 0 differs from the trimmed request line then
validation fails with InvalidResponse. -/
theorem c9_echo_mismatch_invalid (cs : String) (evs : List ReadEvent) (line0 : String)
    (h0 : (splitTerminatorNl (readAll evs)).get? 0 = some line0)
    (_hlen : 2 ≤ (splitTerminatorNl (readAll evs)).length)
    (hne : line0 ≠ trimStr cs) :
    validate_parse cs evs = Outcome.err Error.InvalidResponse := by
  simp only [validate_parse, vpParse]
  rw [h0]
  simp [hne]

/-- C9 (witness): the reply "WRONG newline OK newline" to a halt request
fails with InvalidResponse. -/
theorem c9_echo_mismatch_invalid_witness :
    (splitTerminatorNl (readAll [ReadEvent.data "WRONG\nOK\n"])).get? 0 = some "WRONG" ∧
    2 ≤ (splitTerminatorNl (readAll [ReadEvent.data "WRONG\nOK\n"])).length ∧
    "WRONG" ≠ trimStr "HALT\n" ∧
    validate_parse "HALT\n" [ReadEvent.data "WRONG\nOK\n"]
      = Outcome.err Error.InvalidResponse :=
  ⟨by decide, by decide, by decide,
   c9_echo_mismatch_invalid "HALT\n" _ "WRONG" (by decide) (by decide) (by decide)⟩

/-- C10: whenever response validation returns a value list it is
non-empty; consequently `version` returns the first value (never
reaching its indexing panic), and `calibrated` parses the first value
and ignores any further values — its result depends only on the head of
the list. -/
theorem c10_values_nonempty_first_access_safe :
    (∀ (cs : String) (evs : List ReadEvent) (vl : List String),
      validate_parse cs evs = Outcome.ok (some vl) → vl ≠ []) ∧
    (∀ (evs : List ReadEvent) (vl : List String),
      validate_parse (send_command Command.GetVersion []).2 evs = Outcome.ok (some vl) →
      ∃ v, vl.get? 0 = some v ∧ (version evs).2 = Outcome.ok v) ∧
    (∀ (evs : List ReadEvent) (v : String) (rest : List String) (b : Bool),
      validate_parse (send_command Command.GetCalibrated []).2 evs
        = Outcome.ok (some (v :: rest)) → parseBool v = some b →
      (calibrated evs).2 = Outcome.ok b) ∧
    (∀ (evs : List ReadEvent) (v : String) (rest : List String),
      validate_parse (send_command Command.GetCalibrated []).2 evs
        = Outcome.ok (some (v :: rest)) → parseBool v = none →
      (calibrated evs).2 = Outcome.err (Error.ParseError parseBoolErrMsg)) := by
  refine ⟨vp_values_ne_nil, fun evs vl h => ?_, fun evs v rest b h hpb => ?_,
    fun evs v rest h hpb => ?_⟩
  · have hne := vp_values_ne_nil _ _ _ h
    cases vl with
    | nil => exact absurd rfl hne
    | cons v rest =>
      refine ⟨v, rfl, ?_⟩
      simp only [version]
      rw [h]
      rfl
  · simp only [calibrated]
    rw [h]
    simp [hpb]
  · simp only [calibrated]
    rw [h]
    simp [hpb]

/-- C10 (witness): concrete instances of every part of
`c10_values_nonempty_first_access_safe`; note the extra value token
"junk" that `calibrated` silently ignores. -/
theorem c10_values_nonempty_first_access_safe_witness :
    validate_parse "HALT\n" [ReadEvent.data "HALT\nOK x\n"] = Outcome.ok (some ["x"]) ∧
    (["x"] : List String) ≠ [] ∧
    (∃ v, (["1.0"] : List String).get? 0 = some v ∧
      (version [ReadEvent.data "VERS\nOK 1.0\n"]).2 = Outcome.ok v) ∧
    (calibrated [ReadEvent.data "GETC\nOK true junk\n"]).2 = Outcome.ok true ∧
    (calibrated [ReadEvent.data "GETC\nOK maybe\n"]).2
      = Outcome.err (Error.ParseError parseBoolErrMsg) :=
  ⟨by decide,
   c10_values_nonempty_first_access_safe.1 "HALT\n" [ReadEvent.data "HALT\nOK x\n"]
     ["x"] (by decide),
   c10_values_nonempty_first_access_safe.2.1 _ ["1.0"] (by decide),
   c10_values_nonempty_first_access_safe.2.2.1 _ "true" ["junk"] true
     (by decide) (by decide),
   c10_values_nonempty_first_access_safe.2.2.2 _ "maybe" [] (by decide) (by decide)⟩

end Archerd
